import Mathlib

set_option maxHeartbeats 1000000

namespace NrvDev

/-!
Shallow embedding of the authentication and session-management subsystem of
the nrv.dev personal-site backend (Go).  The handlers `signup`, `signin`,
`logout`, `checkAuth` and `generateInviteCode` are translated from the source;
the relational store (SQLite tables `users` and `invitation_codes`) and the
process-wide `sessions` map are modelled as association lists inside a
`ServerState`, and each handler returns the updated state together with the
HTTP response it writes.  `time.Time` is modelled as a `Nat` timestamp in
nanoseconds; randomness drawn by `crypto/rand.Read` is an explicit byte-list
argument.
-/

/-- Alphabet of Go `base64.StdEncoding`. -/
def base64StdAlphabet : String :=
  "ABCDEFGHIJKLMNOPQRSTUVWXYZabcdefghijklmnopqrstuvwxyz0123456789+/"

/-- Alphabet of Go `base64.URLEncoding` (URL-safe; this encoding is padded). -/
def base64UrlAlphabet : String :=
  "ABCDEFGHIJKLMNOPQRSTUVWXYZabcdefghijklmnopqrstuvwxyz0123456789-_"

/-- Character of the alphabet at a 6-bit index (indices are always < 64, so the
fallback is never the value of an in-range lookup). -/
def b64Char (alpha : String) (i : Nat) : Char :=
  alpha.toList.getD i '='

/-- Byte-group encoding of Go `encoding/base64`: each full 3-byte group yields
4 alphabet characters; a trailing 1- or 2-byte group is padded with `=`. -/
def b64EncodeGroups (alpha : String) : List Nat → List Char
  | [] => []
  | [b0] =>
      [b64Char alpha (b0 / 4), b64Char alpha (b0 % 4 * 16), '=', '=']
  | [b0, b1] =>
      [b64Char alpha (b0 / 4), b64Char alpha (b0 % 4 * 16 + b1 / 16),
       b64Char alpha (b1 % 16 * 4), '=']
  | b0 :: b1 :: b2 :: rest =>
      b64Char alpha (b0 / 4) :: b64Char alpha (b0 % 4 * 16 + b1 / 16) ::
      b64Char alpha (b1 % 16 * 4 + b2 / 64) :: b64Char alpha (b2 % 64) ::
      b64EncodeGroups alpha rest

/-- Go `base64.<Encoding>.EncodeToString`. -/
def encodeToString (alpha : String) (bytes : List Nat) : String :=
  String.mk (b64EncodeGroups alpha bytes)

/-- Go `type session struct { username string; expiry time.Time }`. -/
structure session where
  username : String
  expiry : Nat
deriving Repr, DecidableEq

/-- Go `func (s session) isExpired() bool { return s.expiry.Before(time.Now()) }`;
`time.Time.Before` is a strict comparison, with the current time passed in. -/
def session.isExpired (s : session) (now : Nat) : Bool :=
  decide (s.expiry < now)

/-- Go `type Credentials struct` — the JSON body of signup/signin requests. -/
structure Credentials where
  Username : String
  Password : String
  InvitationCode : String
deriving Repr, DecidableEq

/-- Association-list read: models both Go map indexing and the single-row
SELECT lookups (absence is `sql.ErrNoRows` / the map's zero-value miss). -/
def mapGet {α : Type} (m : List (String × α)) (k : String) : Option α :=
  match m with
  | [] => none
  | (k2, v) :: rest => if k2 = k then some v else mapGet rest k

/-- Association-list write: models Go map assignment and the SQL UPDATE of a
keyed row (appends when the key is absent, as a map assignment would). -/
def mapSet {α : Type} (m : List (String × α)) (k : String) (v : α) :
    List (String × α) :=
  match m with
  | [] => [(k, v)]
  | (k2, w) :: rest =>
      if k2 = k then (k, v) :: rest else (k2, w) :: mapSet rest k v

/-- Association-list delete: models Go `delete(m, k)` (no-op when absent). -/
def mapDelete {α : Type} (m : List (String × α)) (k : String) :
    List (String × α) :=
  match m with
  | [] => []
  | (k2, w) :: rest =>
      if k2 = k then mapDelete rest k else (k2, w) :: mapDelete rest k

/-- Combined server state: the `users(username UNIQUE, password_hash)` and
`invitation_codes(code UNIQUE, used)` tables, and the process-wide in-memory
`sessions` map. -/
structure ServerState where
  users : List (String × String)
  invitation_codes : List (String × Bool)
  sessions : List (String × session)
deriving Repr, DecidableEq

/-- HTTP response as far as the handlers produce one: the status code written
by `WriteHeader` (200 when none is written), the `session_token` cookie set
(value and absolute expiry), and the JSON body. -/
structure Response where
  status : Nat
  cookie : Option (String × Nat)
  body : Option String
deriving Repr, DecidableEq

/-- Status-only response, i.e. a bare `w.WriteHeader(code)`. -/
def resp (status : Nat) : Response :=
  { status := status, cookie := none, body := none }

/-- Modelled from the spec: the bcrypt primitive (`golang.org/x/crypto/bcrypt`,
a library that is not part of this repository) is an adaptive salted one-way
hash whose verification succeeds exactly on the matching password and never
throws on user-supplied mismatches.  The model is the deterministic injective
digest `"$2a$14$" ++ password` (salting abstracted away); generation at cost 14
never fails on input content, matching the spec. -/
def bcryptGenerateFromPassword (password : String) : String :=
  "$2a$14$" ++ password

/-- Modelled from the spec: bcrypt verification re-derives the digest from the
candidate password and compares it with the stored digest. -/
def bcryptCompareHashAndPassword (hash password : String) : Bool :=
  hash == bcryptGenerateFromPassword password

/-- Go `hashPassword`: wraps the primitive at cost 14; the model never fails. -/
def hashPassword (password : String) : String :=
  bcryptGenerateFromPassword password

/-- Go `checkPasswordHash`: true iff the primitive's comparison reports no
error. -/
def checkPasswordHash (password hash : String) : Bool :=
  bcryptCompareHashAndPassword hash password

/-- Go `const sessionDuration = 24 * time.Hour`, in nanoseconds. -/
def sessionDuration : Nat := 24 * 60 * 60 * 1000000000

/-- Go handler `signup`.  A `none` body is a failed JSON decode (400).  The
SELECT of the invitation code misses with `sql.ErrNoRows` when the code is
absent (401); a used code is 401.  The INSERT into `users` fails exactly on
the `UNIQUE(username)` constraint (500); the UPDATE marking the code used
matches the existing row and succeeds.  Note the order: the used flag is
written only after the insert has succeeded. -/
def signup (st : ServerState) (body : Option Credentials) :
    ServerState × Response :=
  match body with
  | none => (st, resp 400)
  | some creds =>
    match mapGet st.invitation_codes creds.InvitationCode with
    | none => (st, resp 401)
    | some used =>
      if used then (st, resp 401)
      else
        let hashedPassword := hashPassword creds.Password
        match mapGet st.users creds.Username with
        | some _ => (st, resp 500)
        | none =>
          let newUsers := st.users ++ [(creds.Username, hashedPassword)]
          let st1 := { st with users := newUsers }
          let newCodes :=
            mapSet st1.invitation_codes creds.InvitationCode true
          let st2 := { st1 with invitation_codes := newCodes }
          (st2, resp 201)

/-- Token computed by `signin`: the source sets
`sessionToken := base64.StdEncoding.EncodeToString(make([]byte, 32))` and then
calls `rand.Read([]byte(sessionToken))` — but `[]byte(sessionToken)` is a
fresh copy of the string's bytes, so the drawn entropy is discarded and the
token is the encoding of 32 zero bytes, independent of `entropy`. -/
def signinSessionToken (_entropy : List Nat) : String :=
  encodeToString base64StdAlphabet (List.replicate 32 0)

/-- Go handler `signin`: look the user up, verify the password, store a new
session under the token and emit it as the `session_token` cookie. -/
def signin (st : ServerState) (body : Option Credentials)
    (entropy : List Nat) (now : Nat) : ServerState × Response :=
  match body with
  | none => (st, resp 400)
  | some creds =>
    match mapGet st.users creds.Username with
    | none => (st, resp 401)
    | some hashedPassword =>
      if checkPasswordHash creds.Password hashedPassword then
        let sessionToken := signinSessionToken entropy
        let expiresAt := now + sessionDuration
        let newSessions :=
          mapSet st.sessions sessionToken ⟨creds.Username, expiresAt⟩
        ({ st with sessions := newSessions },
         { status := 200, cookie := some (sessionToken, expiresAt),
           body := none })
      else (st, resp 401)

/-- Go handler `logout`: `r.Cookie` fails only with `http.ErrNoCookie`
(modelled as a `none` cookie, giving 401); otherwise it deletes the token
unconditionally and clears the cookie, writing no status (200). -/
def logout (st : ServerState) (cookie : Option String) (now : Nat) :
    ServerState × Response :=
  match cookie with
  | none => (st, resp 401)
  | some sessionToken =>
    ({ st with sessions := mapDelete st.sessions sessionToken },
     { status := 200, cookie := some ("", now), body := none })

/-- Go handler `checkAuth`: a missing cookie or unknown token is 401; an
expired session is deleted and 401; otherwise 200. -/
def checkAuth (st : ServerState) (cookie : Option String) (now : Nat) :
    ServerState × Response :=
  match cookie with
  | none => (st, resp 401)
  | some sessionToken =>
    match mapGet st.sessions sessionToken with
    | none => (st, resp 401)
    | some userSession =>
      if userSession.isExpired now then
        ({ st with sessions := mapDelete st.sessions sessionToken },
         resp 401)
      else (st, resp 200)

/-- Go handler `generateInviteCode` (HTTP): 16 random bytes, URL-safe base64
encoded; the INSERT fails exactly on the `UNIQUE(code)` constraint (500), and
on success the code is persisted unused and returned as JSON. -/
def generateInviteCode (st : ServerState) (randomBytes : List Nat) :
    ServerState × Response :=
  let code := encodeToString base64UrlAlphabet randomBytes
  match mapGet st.invitation_codes code with
  | some _ => (st, resp 500)
  | none =>
    ({ st with invitation_codes := st.invitation_codes ++ [(code, false)] },
     { status := 200, cookie := none, body := some code })

/-- Go `generateInviteCodeCLI`: the same generation and INSERT as the HTTP
handler, printing the code; `log.Fatal` on failure is modelled as `none`. -/
def generateInviteCodeCLI (st : ServerState) (randomBytes : List Nat) :
    Option (ServerState × String) :=
  let code := encodeToString base64UrlAlphabet randomBytes
  match mapGet st.invitation_codes code with
  | some _ => none
  | none =>
    let newCodes := st.invitation_codes ++ [(code, false)]
    some ({ st with invitation_codes := newCodes }, code)

/-! Helper lemmas about the association-list store operations. -/

theorem mapGet_mapSet_self {α : Type} (m : List (String × α)) (k : String)
    (v : α) : mapGet (mapSet m k v) k = some v := by
  induction m with
  | nil => simp [mapSet, mapGet]
  | cons hd tl ih =>
    obtain ⟨k2, w⟩ := hd
    by_cases h : k2 = k <;> simp [mapSet, mapGet, h, ih]

theorem mapGet_mapDelete_self {α : Type} (m : List (String × α)) (k : String) :
    mapGet (mapDelete m k) k = none := by
  induction m with
  | nil => simp [mapDelete, mapGet]
  | cons hd tl ih =>
    obtain ⟨k2, w⟩ := hd
    by_cases h : k2 = k <;> simp [mapDelete, mapGet, h, ih]

theorem mapDelete_of_mapGet_none {α : Type} (m : List (String × α))
    (k : String) (h : mapGet m k = none) : mapDelete m k = m := by
  induction m with
  | nil => simp [mapDelete]
  | cons hd tl ih =>
    obtain ⟨k2, w⟩ := hd
    by_cases hk : k2 = k
    · simp [mapGet, hk] at h
    · simp [mapGet, hk] at h
      simp [mapDelete, hk, ih h]

theorem mapGet_append_self {α : Type} (m : List (String × α)) (k : String)
    (v : α) (h : mapGet m k = none) : mapGet (m ++ [(k, v)]) k = some v := by
  induction m with
  | nil => simp [mapGet]
  | cons hd tl ih =>
    obtain ⟨k2, w⟩ := hd
    by_cases hk : k2 = k
    · simp [mapGet, hk] at h
    · simp [mapGet, hk] at h ⊢
      exact ih h

theorem bcryptGenerateFromPassword_inj {p q : String}
    (h : bcryptGenerateFromPassword p = bcryptGenerateFromPassword q) :
    p = q := by
  unfold bcryptGenerateFromPassword at h
  obtain ⟨pd⟩ := p
  obtain ⟨qd⟩ := q
  simp only [String.ext_iff, String.data_append] at h ⊢
  exact List.append_cancel_left h

theorem b64EncodeGroups_length (alpha : String) :
    ∀ l : List Nat, (b64EncodeGroups alpha l).length = (l.length + 2) / 3 * 4
  | [] => by simp [b64EncodeGroups]
  | [b0] => by simp [b64EncodeGroups]
  | [b0, b1] => by simp [b64EncodeGroups]
  | b0 :: b1 :: b2 :: rest => by
    simp only [b64EncodeGroups, List.length_cons,
      b64EncodeGroups_length alpha rest]
    omega

theorem b64Char_mem (alpha : String) (i : Nat) :
    b64Char alpha i ∈ alpha.toList ∨ b64Char alpha i = '=' := by
  unfold b64Char
  rcases h : alpha.toList[i]? with _ | c
  · right
    simp only [String.toList] at h
    simp [List.getD, h]
  · left
    have hm : c ∈ alpha.toList := List.getElem?_mem h
    simp only [String.toList] at h
    simp only [String.toList]
    simp [List.getD, h, hm]
    exact hm

theorem b64EncodeGroups_mem (alpha : String) :
    ∀ (l : List Nat) (c : Char), c ∈ b64EncodeGroups alpha l →
      c ∈ alpha.toList ∨ c = '='
  | [], c => by simp [b64EncodeGroups]
  | [b0], c => by
    intro hc
    simp only [b64EncodeGroups, List.mem_cons, List.not_mem_nil,
      or_false] at hc
    rcases hc with h | h | h | h
    all_goals first
      | (subst h; exact b64Char_mem alpha _)
      | (right; exact h)
  | [b0, b1], c => by
    intro hc
    simp only [b64EncodeGroups, List.mem_cons, List.not_mem_nil,
      or_false] at hc
    rcases hc with h | h | h | h
    all_goals first
      | (subst h; exact b64Char_mem alpha _)
      | (right; exact h)
  | b0 :: b1 :: b2 :: rest, c => by
    intro hc
    simp only [b64EncodeGroups, List.mem_cons] at hc
    rcases hc with h | h | h | h | h
    · subst h; exact b64Char_mem alpha _
    · subst h; exact b64Char_mem alpha _
    · subst h; exact b64Char_mem alpha _
    · subst h; exact b64Char_mem alpha _
    · exact b64EncodeGroups_mem alpha rest c h

/-- Unchanged-state fact shared by the signup theorems: every outcome of
`signup` other than 201 leaves the server state exactly as it was — the used
flag is written only after a successful insert. -/
theorem signup_fail_frame (st : ServerState) (body : Option Credentials)
    (h : (signup st body).2.status ≠ 201) : (signup st body).1 = st := by
  unfold signup at *
  rcases body with _ | creds
  · rfl
  · simp only at h ⊢
    rcases hc : mapGet st.invitation_codes creds.InvitationCode with _ | used
    · simp [hc]
    · rcases used with _ | _
      · simp only [hc, Bool.false_eq_true, if_false] at h ⊢
        rcases hu : mapGet st.users creds.Username with _ | old
        · simp [hu, resp] at h
        · simp [hu]
      · simp [hc]

/-! Concrete states used by witnesses and counterexamples. -/

/-- State with one registered user and one live session under token "tok". -/
def stSession : ServerState :=
  { users := [("alice", hashPassword "pw")],
    invitation_codes := [],
    sessions := [("tok", { username := "alice", expiry := 5 })] }

/-- State with one registered user "bob" and no sessions or codes. -/
def stUserBob : ServerState :=
  { users := [("bob", hashPassword "pw")],
    invitation_codes := [],
    sessions := [] }

/-- Empty server state. -/
def stEmpty : ServerState :=
  { users := [], invitation_codes := [], sessions := [] }

/-- State with an unused invitation code "c" and no users. -/
def stCodeOnly : ServerState :=
  { users := [],
    invitation_codes := [("c", false)],
    sessions := [] }

/-- State with an unused invitation code "c" and user "u" already taken. -/
def stCodeAndUser : ServerState :=
  { users := [("u", hashPassword "old")],
    invitation_codes := [("c", false)],
    sessions := [] }

/-- Claim C1: contrary to the claim, the token `signin` stores does not depend
on the drawn entropy at all — `rand.Read` fills a fresh copy of the string's
bytes, so every signin stores the base64 encoding of 32 zero bytes, the
constant string of 43 A characters and one padding =; any two sessions share
this token. -/
theorem c1_signin_token_constant (e1 e2 : List Nat) :
    signinSessionToken e1 = "AAAAAAAAAAAAAAAAAAAAAAAAAAAAAAAAAAAAAAAAAAA=" ∧
    signinSessionToken e1 = signinSessionToken e2 := by
  refine ⟨?_, rfl⟩
  unfold signinSessionToken
  decide

/-- Claim C2 counterexample: signing out twice while still presenting the same
cookie does not fail Unauthorized on the second call — `logout` deletes
unconditionally and returns 200 both times. -/
theorem c2_counterexample :
    (logout stSession (some "tok") 9).2.status = 200 ∧
    mapGet (logout stSession (some "tok") 9).1.sessions "tok" = none ∧
    (logout (logout stSession (some "tok") 9).1 (some "tok") 10).2.status
      = 200 ∧
    ¬ (logout (logout stSession (some "tok") 9).1 (some "tok") 10).2.status
      = 401 := by
  refine ⟨by decide, by decide, by decide, by decide⟩

/-- Claim C2 (amended): calling `logout` twice with the same token is safe —
the first call removes the session and succeeds (200), and the second call is
a no-op that also succeeds (200), leaving the store unchanged, rather than
failing Unauthorized or crashing; `logout` fails Unauthorized exactly when no
cookie is presented. -/
theorem c2_logout_twice_safe (st : ServerState) (tok : String)
    (n1 n2 n3 : Nat) :
    (logout st (some tok) n1).2.status = 200 ∧
    mapGet (logout st (some tok) n1).1.sessions tok = none ∧
    (logout (logout st (some tok) n1).1 (some tok) n2).2.status = 200 ∧
    (logout (logout st (some tok) n1).1 (some tok) n2).1.sessions
      = (logout st (some tok) n1).1.sessions ∧
    logout st none n3 = (st, resp 401) := by
  refine ⟨rfl, ?_, rfl, ?_, rfl⟩
  · simp [logout, mapGet_mapDelete_self]
  · simp only [logout]
    exact mapDelete_of_mapGet_none _ _
      (by simp [logout, mapGet_mapDelete_self])

/-- Claim C3: if the session under the presented token has its expiry strictly
in the past at the moment of `checkAuth`, the call fails 401 and removes the
entry from the store, so a subsequent lookup via a second `checkAuth` with the
same token also finds it absent and fails 401. -/
theorem c3_checkAuth_expired (st : ServerState) (tok : String) (s : session)
    (now now2 : Nat) (hs : mapGet st.sessions tok = some s)
    (hexp : s.expiry < now) :
    (checkAuth st (some tok) now).2.status = 401 ∧
    mapGet (checkAuth st (some tok) now).1.sessions tok = none ∧
    (checkAuth (checkAuth st (some tok) now).1 (some tok) now2).2.status
      = 401 := by
  have hdel : mapGet (mapDelete st.sessions tok) tok = none :=
    mapGet_mapDelete_self st.sessions tok
  simp [checkAuth, hs, session.isExpired, hexp, hdel, resp]

/-- Witness for C3 at a concrete expired session. -/
theorem c3_checkAuth_expired_witness :
    (checkAuth stSession (some "tok") 9).2.status = 401 ∧
    mapGet (checkAuth stSession (some "tok") 9).1.sessions "tok" = none ∧
    (checkAuth (checkAuth stSession (some "tok") 9).1 (some "tok") 10).2.status
      = 401 :=
  c3_checkAuth_expired stSession "tok" { username := "alice", expiry := 5 }
    9 10 (by decide) (by decide)

/-- Claim C9: `signup` never creates, modifies, or removes any session entry —
on every path, success (201) or failure, the sessions map of the returned
state is exactly the one of the input state. -/
theorem c9_signup_sessions_frame (st : ServerState)
    (body : Option Credentials) : (signup st body).1.sessions = st.sessions := by
  unfold signup
  rcases body with _ | creds
  · rfl
  · rcases hc : mapGet st.invitation_codes creds.InvitationCode with _ | used
    · simp [hc]
    · rcases used with _ | _
      · rcases hu : mapGet st.users creds.Username with _ | old <;>
          simp [hc, hu]
      · simp [hc]

/-- Claim C10: the expiry comparison is strict — a session whose expiry equals
the current time is not expired, so `checkAuth` succeeds with 200 and leaves
the state (in particular the entry) untouched; `isExpired` holds exactly when
the expiry is strictly before the current time. -/
theorem c10_expiry_boundary (st : ServerState) (tok : String) (s : session)
    (now : Nat) (hs : mapGet st.sessions tok = some s)
    (heq : s.expiry = now) :
    session.isExpired s now = false ∧
    checkAuth st (some tok) now = (st, resp 200) ∧
    (∀ n2 : Nat, session.isExpired s n2 = true ↔ s.expiry < n2) := by
  refine ⟨?_, ?_, ?_⟩
  · simp [session.isExpired, heq]
  · simp [checkAuth, hs, session.isExpired, heq]
  · intro n2
    simp [session.isExpired]

/-- Witness for C10 at a session whose expiry exactly equals the current
time. -/
theorem c10_expiry_boundary_witness :
    session.isExpired { username := "alice", expiry := 5 } 5 = false ∧
    checkAuth stSession (some "tok") 5 = (stSession, resp 200) ∧
    (∀ n2 : Nat,
      session.isExpired { username := "alice", expiry := 5 } n2 = true
        ↔ (5 : Nat) < n2) :=
  c10_expiry_boundary stSession "tok" { username := "alice", expiry := 5 } 5
    (by decide) (by decide)

/-- Claim C4: a valid signup presenting an existing unused invitation code
(and a fresh username) succeeds with 201 and marks the code used, so a second
signup with the same code fails 401 without changing the state; and a signup
presenting a non-existent code fails 401. -/
theorem c4_signup_consumes_code (st : ServerState) (creds : Credentials)
    (hcode : mapGet st.invitation_codes creds.InvitationCode = some false)
    (huser : mapGet st.users creds.Username = none) :
    (signup st (some creds)).2 = resp 201 ∧
    mapGet (signup st (some creds)).1.invitation_codes creds.InvitationCode
      = some true ∧
    (∀ creds2 : Credentials, creds2.InvitationCode = creds.InvitationCode →
      signup (signup st (some creds)).1 (some creds2)
        = ((signup st (some creds)).1, resp 401)) ∧
    (∀ (st2 : ServerState) (creds3 : Credentials),
      mapGet st2.invitation_codes creds3.InvitationCode = none →
      signup st2 (some creds3) = (st2, resp 401)) := by
  have hmark :
      mapGet (mapSet st.invitation_codes creds.InvitationCode true)
        creds.InvitationCode = some true :=
    mapGet_mapSet_self st.invitation_codes creds.InvitationCode true
  refine ⟨?_, ?_, ?_, ?_⟩
  · simp [signup, hcode, huser]
  · simp [signup, hcode, huser, hmark]
  · intro creds2 h2
    simp [signup, hcode, huser, h2, hmark]
  · intro st2 creds3 h3
    simp [signup, h3]

/-- Witness for C4: signing up "u" with code "c" on a store holding the unused
code "c". -/
theorem c4_signup_consumes_code_witness :
    (signup stCodeOnly
        (some { Username := "u", Password := "p", InvitationCode := "c" })).2
      = resp 201 ∧
    mapGet (signup stCodeOnly
        (some { Username := "u", Password := "p",
                InvitationCode := "c" })).1.invitation_codes "c"
      = some true ∧
    (∀ creds2 : Credentials, creds2.InvitationCode = "c" →
      signup (signup stCodeOnly
          (some { Username := "u", Password := "p",
                  InvitationCode := "c" })).1 (some creds2)
        = ((signup stCodeOnly
            (some { Username := "u", Password := "p",
                    InvitationCode := "c" })).1, resp 401)) ∧
    (∀ (st2 : ServerState) (creds3 : Credentials),
      mapGet st2.invitation_codes creds3.InvitationCode = none →
      signup st2 (some creds3) = (st2, resp 401)) :=
  c4_signup_consumes_code stCodeOnly
    { Username := "u", Password := "p", InvitationCode := "c" }
    (by decide) (by decide)

/-- Claim C5: a signin for an absent username and a signin for an existing
username with a wrong password produce the same caller-visible outcome — the
bare 401 response with no cookie set and an unchanged state — so a caller
cannot distinguish the two cases. -/
theorem c5_signin_indistinguishable (st : ServerState)
    (creds1 creds2 : Credentials) (e1 e2 : List Nat) (n1 n2 : Nat)
    (h1 : String) (habsent : mapGet st.users creds1.Username = none)
    (hfound : mapGet st.users creds2.Username = some h1)
    (hwrong : checkPasswordHash creds2.Password h1 = false) :
    signin st (some creds1) e1 n1 = (st, resp 401) ∧
    signin st (some creds2) e2 n2 = (st, resp 401) ∧
    signin st (some creds1) e1 n1 = signin st (some creds2) e2 n2 := by
  refine ⟨?_, ?_, ?_⟩
  · simp [signin, habsent]
  · simp [signin, hfound, hwrong]
  · simp [signin, habsent, hfound, hwrong]

/-- Witness for C5: unknown user "alice" versus known user "bob" with a wrong
password, against the same store. -/
theorem c5_signin_indistinguishable_witness :
    signin stUserBob
        (some { Username := "alice", Password := "pw", InvitationCode := "" })
        [1] 7 = (stUserBob, resp 401) ∧
    signin stUserBob
        (some { Username := "bob", Password := "wrong", InvitationCode := "" })
        [2] 8 = (stUserBob, resp 401) ∧
    signin stUserBob
        (some { Username := "alice", Password := "pw", InvitationCode := "" })
        [1] 7
      = signin stUserBob
          (some { Username := "bob", Password := "wrong",
                  InvitationCode := "" }) [2] 8 :=
  c5_signin_indistinguishable stUserBob
    { Username := "alice", Password := "pw", InvitationCode := "" }
    { Username := "bob", Password := "wrong", InvitationCode := "" }
    [1] [2] 7 8 (hashPassword "pw") (by decide) (by decide) (by decide)

/-- Claim C6: hashing a password and verifying the same password against the
digest returns true, and verifying any different password against that digest
returns false (bcrypt primitive modelled from the spec). -/
theorem c6_hash_verify_roundtrip (p q : String) (hne : p ≠ q) :
    checkPasswordHash p (hashPassword p) = true ∧
    checkPasswordHash q (hashPassword p) = false := by
  constructor
  · simp [checkPasswordHash, bcryptCompareHashAndPassword, hashPassword]
  · simp only [checkPasswordHash, bcryptCompareHashAndPassword, hashPassword,
      beq_eq_false_iff_ne, ne_eq]
    intro h
    exact hne (bcryptGenerateFromPassword_inj h)

/-- Witness for C6 with a unicode password and the empty string. -/
theorem c6_hash_verify_roundtrip_witness :
    checkPasswordHash "pässwörd✓" (hashPassword "pässwörd✓") = true ∧
    checkPasswordHash "" (hashPassword "pässwörd✓") = false :=
  c6_hash_verify_roundtrip "pässwörd✓" "" (by decide)

/-- Claim C7 counterexample: no signup execution both fails the identity
insert (reported 500) and leaves the presented invitation code marked used —
the used flag is written only after a successful insert, so every 500 outcome
leaves the state unchanged. -/
theorem c7_counterexample :
    ¬ ∃ (st : ServerState) (creds : Credentials),
      (signup st (some creds)).2.status = 500 ∧
      mapGet st.invitation_codes creds.InvitationCode = some false ∧
      mapGet (signup st (some creds)).1.invitation_codes creds.InvitationCode
        = some true := by
  rintro ⟨st, creds, h500, hbefore, hafter⟩
  have hne : (signup st (some creds)).2.status ≠ 201 := by
    rw [h500]; decide
  rw [signup_fail_frame st (some creds) hne, hbefore] at hafter
  simp at hafter

/-- Claim C7 (amended): the reference does not burn a code on a failed signup —
the used flag is updated only after the identity insert succeeds, so a signup
reported Internal (500) leaves the whole state, and in particular the
invitation code's unused flag, unchanged. -/
theorem c7_no_burn_on_failed_insert (st : ServerState) (creds : Credentials)
    (h500 : (signup st (some creds)).2.status = 500) :
    (signup st (some creds)).1 = st ∧
    ∀ b : Bool, mapGet st.invitation_codes creds.InvitationCode = some b →
      mapGet (signup st (some creds)).1.invitation_codes creds.InvitationCode
        = some b := by
  have hne : (signup st (some creds)).2.status ≠ 201 := by
    rw [h500]; decide
  have hframe := signup_fail_frame st (some creds) hne
  exact ⟨hframe, fun b hb => by rw [hframe]; exact hb⟩

/-- Witness for C7: a signup whose insert fails because the username is
already taken, with the unused code "c" left untouched. -/
theorem c7_no_burn_on_failed_insert_witness :
    (signup stCodeAndUser
        (some { Username := "u", Password := "p", InvitationCode := "c" })).1
      = stCodeAndUser ∧
    ∀ b : Bool, mapGet stCodeAndUser.invitation_codes "c" = some b →
      mapGet (signup stCodeAndUser
          (some { Username := "u", Password := "p",
                  InvitationCode := "c" })).1.invitation_codes "c"
        = some b :=
  c7_no_burn_on_failed_insert stCodeAndUser
    { Username := "u", Password := "p", InvitationCode := "c" } (by decide)

/-- Claim C8 counterexample: issuing an invitation code with 16 zero random
bytes produces the code of Go `base64.URLEncoding`, which is padded — a
24-character string, not 22. -/
theorem c8_counterexample :
    (generateInviteCode stEmpty (List.replicate 16 0)).2.body
      = some "AAAAAAAAAAAAAAAAAAAAAA==" ∧
    ¬ ("AAAAAAAAAAAAAAAAAAAAAA==" : String).length = 22 := by
  constructor
  · decide
  · decide

/-- Claim C8 (amended): every invitation code produced by the issue operation
(HTTP or CLI) is the padded URL-safe base64 encoding of the 16 random bytes —
a string of 24 printable characters (22 alphabet characters plus 2 padding
'=') — and is persisted with its used flag set to false; the CLI and HTTP
paths produce the same code and state. -/
theorem c8_invite_code_shape (st : ServerState) (bytes : List Nat)
    (hlen : bytes.length = 16)
    (hfresh : mapGet st.invitation_codes
      (encodeToString base64UrlAlphabet bytes) = none) :
    (generateInviteCode st bytes).2.body
      = some (encodeToString base64UrlAlphabet bytes) ∧
    (encodeToString base64UrlAlphabet bytes).length = 24 ∧
    (∀ c ∈ (encodeToString base64UrlAlphabet bytes).toList,
      c ∈ base64UrlAlphabet.toList ∨ c = '=') ∧
    mapGet (generateInviteCode st bytes).1.invitation_codes
      (encodeToString base64UrlAlphabet bytes) = some false ∧
    generateInviteCodeCLI st bytes
      = some ((generateInviteCode st bytes).1,
              encodeToString base64UrlAlphabet bytes) := by
  refine ⟨?_, ?_, ?_, ?_, ?_⟩
  · simp [generateInviteCode, hfresh]
  · show (String.mk (b64EncodeGroups base64UrlAlphabet bytes)).length = 24
    simp [String.length, b64EncodeGroups_length, hlen]
  · intro c hc
    exact b64EncodeGroups_mem base64UrlAlphabet bytes c hc
  · simp only [generateInviteCode, hfresh]
    exact mapGet_append_self st.invitation_codes _ false hfresh
  · simp [generateInviteCode, generateInviteCodeCLI, hfresh]

/-- Witness for C8 at 16 concrete bytes on the empty store. -/
theorem c8_invite_code_shape_witness :
    (generateInviteCode stEmpty (List.replicate 16 0)).2.body
      = some (encodeToString base64UrlAlphabet (List.replicate 16 0)) ∧
    (encodeToString base64UrlAlphabet (List.replicate 16 0)).length = 24 ∧
    (∀ c ∈ (encodeToString base64UrlAlphabet (List.replicate 16 0)).toList,
      c ∈ base64UrlAlphabet.toList ∨ c = '=') ∧
    mapGet (generateInviteCode stEmpty
        (List.replicate 16 0)).1.invitation_codes
      (encodeToString base64UrlAlphabet (List.replicate 16 0)) = some false ∧
    generateInviteCodeCLI stEmpty (List.replicate 16 0)
      = some ((generateInviteCode stEmpty (List.replicate 16 0)).1,
              encodeToString base64UrlAlphabet (List.replicate 16 0)) :=
  c8_invite_code_shape stEmpty (List.replicate 16 0) (by decide) (by decide)

end NrvDev
